import Mathlib

set_option autoImplicit false

/-!
Shallow embedding of `backend/src/users.rs`: the user-management core
(error classifier, user repository, signup workflow, CORS fairing and
route mounting), together with theorems checking the specification's
claims against it.

The `user_profile` relation is modelled as a list of rows plus the next
value of the id-generating sequence; each SQL statement of the source is
embedded as a function on that state.
-/

/-- Rust struct `CreateUserSchema` (users.rs lines 15-22): the five
writable fields a caller submits. -/
structure CreateUserSchema where
  username : String
  first_name : String
  last_name : String
  email : String
  password : String
  deriving DecidableEq

/-- Rust struct `UserModel` (users.rs lines 26-34): a persisted user row. -/
structure UserModel where
  id : Int
  username : String
  first_name : String
  last_name : String
  email : String
  password : String
  deriving DecidableEq

/-- Rust enum `SignupError` (users.rs lines 36-41). -/
inductive SignupError where
  | NonUniqueIdError
  | UnknownQueryError
  | UnknownDatabaseError
  deriving DecidableEq

/-- Payload of `sqlx::Error::Database`: a boxed `dyn DatabaseError`,
either a Postgres database error carrying its SQLSTATE code, or a
database error produced by some other driver. -/
inductive DatabaseErrorBox where
  | pg (code : String)
  | nonPg (code : Option String)
  deriving DecidableEq

/-- Rust enum `sqlx::Error`, shaped as the classifier inspects it: the
`Database` variant versus the non-database variants (connection,
pool, protocol, decoding, ...), of which a few representatives are
listed. -/
inductive SqlxError where
  | Database (e : DatabaseErrorBox)
  | Io
  | PoolTimedOut
  | Protocol
  | RowNotFound
  deriving DecidableEq

/-- Observable result of running Rust code that may panic. -/
inductive PanicOr (α : Type) where
  | panicked (msg : String)
  | ok (a : α)
  deriving DecidableEq

/-- Call `Box<dyn DatabaseError>::downcast::<PgDatabaseError>()`
(users.rs line 47): yields the Postgres error, but panics when the boxed
database error is not a Postgres error (sqlx's `downcast`, unlike
`try_downcast`, panics on a type mismatch). -/
def DatabaseErrorBox.downcastPg : DatabaseErrorBox → PanicOr String
  | .pg code => .ok code
  | .nonPg _ => .panicked "downcast to wrong type"

/-- Classifier `impl From<sqlx::Error> for SignupError` (users.rs lines
43-66); the Rust `match pg_error.code()` on the literal `"23505"` is an
equality test on the SQLSTATE code. -/
def SignupError.fromSqlx : SqlxError → PanicOr SignupError
  | .Database dbError =>
    match dbError.downcastPg with
    | .panicked msg => .panicked msg
    | .ok code =>
      if code = "23505" then .ok .NonUniqueIdError else .ok .UnknownQueryError
  | _ => .ok .UnknownDatabaseError

/-- Display `impl Display for SignupError` (users.rs lines 68-80): the
fixed user-facing message of each kind. -/
def SignupError.displayString : SignupError → String
  | .NonUniqueIdError => "Duplicate username or email contained a duplicate key."
  | .UnknownQueryError => "Database query contained an unspecified error."
  | .UnknownDatabaseError => "Database error, not query related."

/-- The `user_profile` relation: its rows in storage order, plus the next
value of the id-generating sequence (schema of spec section 6: id
generated and unique, username and email unique). -/
structure Db where
  rows : List UserModel
  nextId : Int
  deriving DecidableEq

/-- A username/email uniqueness violation: some stored row already holds
the submitted username or the submitted email. -/
def Db.violatesUnique (db : Db) (user : CreateUserSchema) : Bool :=
  db.rows.any fun r => r.username == user.username || r.email == user.email

/-- Statement `INSERT INTO user_profile (username, first_name, last_name,
email, password) VALUES ($1,$2,$3,$4,$5) RETURNING *` with `fetch_one`
(users.rs lines 122-137): on a uniqueness violation Postgres raises
SQLSTATE 23505; otherwise the row is stored with the generated id and
returned in full. -/
def Db.insertUserRow (db : Db) (user : CreateUserSchema) :
    Except SqlxError (UserModel × Db) :=
  if db.violatesUnique user then
    .error (.Database (.pg "23505"))
  else
    let row : UserModel :=
      { id := db.nextId, username := user.username,
        first_name := user.first_name, last_name := user.last_name,
        email := user.email, password := user.password }
    .ok (row, { rows := db.rows ++ [row], nextId := db.nextId + 1 })

/-- Function `create_user` (users.rs lines 118-140): run the insert and
map any storage error through the classifier
(`map_err(SignupError::from)`). -/
def create_user (db : Db) (user : CreateUserSchema) :
    PanicOr (Except SignupError (UserModel × Db)) :=
  match db.insertUserRow user with
  | .ok (row, dbAfter) => .ok (.ok (row, dbAfter))
  | .error e =>
    match SignupError.fromSqlx e with
    | .panicked msg => .panicked msg
    | .ok se => .ok (.error se)

/-- Handler `list_users` (users.rs lines 109-116): `SELECT * FROM
user_profile` with `fetch_all` returns every stored row in storage
order. -/
def list_users (db : Db) : Except SqlxError (List UserModel) :=
  .ok db.rows

/-- Handler `get_user` (users.rs lines 172-180): `SELECT * FROM
user_profile WHERE id = $1` with `fetch_optional` returns the first
matching row, or `none` when no row matches. -/
def get_user (db : Db) (id : Int) : Except SqlxError (Option UserModel) :=
  .ok (db.rows.find? fun r => r.id == id)

/-- Handler `delete_user` (users.rs lines 162-170): `DELETE FROM
user_profile WHERE id = $1` removes every matching row, and the handler
returns `some ()` exactly when `rows_affected() == 1`. -/
def delete_user (db : Db) (id : Int) :
    Except SqlxError (Option Unit × Db) :=
  let affected := (db.rows.filter fun r => r.id == id).length
  let remaining := db.rows.filter fun r => !(r.id == id)
  .ok (if affected = 1 then some () else none, { db with rows := remaining })

/-- Status `rocket::http::Status::Conflict`. -/
def statusConflict : Nat := 409

/-- Status `rocket::http::Status::InternalServerError`. -/
def statusInternalServerError : Nat := 500

/-- Status of Rocket's `Created` responder. -/
def statusCreated : Nat := 201

/-- The two response shapes `signup_user` produces:
`Created<Json<UserModel>>` (a Location plus the created row) or
`status::Custom<String>`. -/
inductive SignupResponse where
  | created (location : String) (body : UserModel)
  | custom (status : Nat) (body : String)
  deriving DecidableEq

/-- HTTP status a `SignupResponse` is sent with: `Created::new` responds
201, `Custom` carries its own status. -/
def SignupResponse.statusCode : SignupResponse → Nat
  | .created _ _ => statusCreated
  | .custom s _ => s

/-- Handler `signup_user` (users.rs lines 142-160). -/
def signup_user (db : Db) (user : CreateUserSchema) :
    PanicOr (SignupResponse × Db) :=
  match create_user db user with
  | .panicked msg => .panicked msg
  | .ok (.ok (userModel, dbAfter)) =>
    let location := "/users/" ++ toString userModel.id
    .ok (.created location userModel, dbAfter)
  | .ok (.error e) =>
    let status :=
      match e with
      | .NonUniqueIdError => statusConflict
      | _ => statusInternalServerError
    .ok (.custom status e.displayString, db)

/-- JSON scalar values appearing in a serialized `UserModel`. -/
inductive JsonValue where
  | num (n : Int)
  | str (s : String)
  deriving DecidableEq

/-- Serde's `Serialize` derive on `UserModel` (users.rs lines 26-34):
every field is emitted under its own name, with no skip, rename or
transform attribute — the password field included, verbatim. -/
def UserModel.serialize (u : UserModel) : List (String × JsonValue) :=
  [("id", .num u.id), ("username", .str u.username),
   ("first_name", .str u.first_name), ("last_name", .str u.last_name),
   ("email", .str u.email), ("password", .str u.password)]

/-- An HTTP header map in insertion order. -/
structure Headers where
  pairs : List (String × String)
  deriving DecidableEq

/-- Lookup `HeaderMap::get_one`: the first header with the given name. -/
def Headers.getOne (hs : Headers) (name : String) : Option String :=
  (hs.pairs.find? fun p => p.1 == name).map Prod.snd

/-- Mutation `Response::set_header`: replaces every header of the same
name with the single given one. -/
def Headers.setHeader (hs : Headers) (name value : String) : Headers :=
  { pairs := (hs.pairs.filter fun p => !(p.1 == name)) ++ [(name, value)] }

/-- The part of a `rocket::Request` the CORS fairing reads. -/
structure RequestModel where
  headers : Headers
  deriving DecidableEq

/-- A `rocket::Response` as the CORS fairing touches it: status, headers
and body; the fairing only sets headers. -/
structure ResponseModel where
  status : Nat
  headers : Headers
  body : String
  deriving DecidableEq

/-- Fairing `CORS::on_response` (users.rs lines 92-106), attached to the
whole rocket by `users_stage` so it runs on every response: sets the four
access-control headers, echoing the request's `Origin` header when
present and `*` otherwise. -/
def CORS.onResponse (request : RequestModel) (response : ResponseModel) :
    ResponseModel :=
  let origin := (request.headers.getOne "Origin").getD "*"
  { response with
    headers :=
      ((((response.headers.setHeader
            "Access-Control-Allow-Origin" origin).setHeader
            "Access-Control-Allow-Methods" "POST, GET, PATCH, OPTIONS").setHeader
            "Access-Control-Allow-Headers" "*").setHeader
            "Access-Control-Allow-Credentials" "true") }

/-- A route attribute: HTTP method and the path written on the handler. -/
structure RouteDef where
  method : String
  path : String
  deriving DecidableEq

/-- Attribute `#[get("/users")]` on `list_users` (users.rs line 109). -/
def listUsersRoute : RouteDef := { method := "GET", path := "/users" }

/-- Attribute `#[delete("/users/<id>")]` on `delete_user` (users.rs line
162). -/
def deleteUserRoute : RouteDef := { method := "DELETE", path := "/users/<id>" }

/-- Attribute `#[get("/<id>")]` on `get_user` (users.rs line 172). -/
def getUserRoute : RouteDef := { method := "GET", path := "/<id>" }

/-- Attribute `#[post("/signup", data = ...)]` on `signup_user` (users.rs
line 142). -/
def signupUserRoute : RouteDef := { method := "POST", path := "/signup" }

/-- Drop a trailing slash from a path, written on the character list so
that it computes inside the kernel. -/
def stripTrailingSlash (s : String) : String :=
  if s.data.getLast? = some '/' then { data := s.data.dropLast } else s

/-- Rocket's mount composition: the effective URI of a route mounted at
`base` is `base` (without its trailing slash) followed by the route's own
path. -/
def mountPath (base : String) (route : String) : String :=
  stripTrailingSlash base ++ route

/-- Mounting in `users_stage` (users.rs lines 182-189): `list_users`,
`delete_user` and `get_user` are mounted at base `"/users/"`, and
`signup_user` at base `"/"`. -/
def users_stage : List (String × RouteDef) :=
  [("/users/", listUsersRoute), ("/users/", deleteUserRoute),
   ("/users/", getUserRoute), ("/", signupUserRoute)]

/-- The effective (method, path) pairs the mounted core serves. -/
def effectiveRoutes : List (String × String) :=
  users_stage.map fun p => (p.2.method, mountPath p.1 p.2.path)

/-- Modelled from the spec: the route table of spec section 6 in the
order of `users_stage` — list, delete, fetch, signup — writing the
spec's `{id}` segment in Rocket's `<id>` syntax. -/
def specRouteTable : List (String × String) :=
  [("GET", "/users"), ("DELETE", "/users/<id>"),
   ("GET", "/users/<id>"), ("POST", "/signup")]

/-- Concrete signup input used in witnesses (the spec's concrete
scenario). -/
def aliceInput : CreateUserSchema :=
  { username := "alice", first_name := "A", last_name := "L",
    email := "alice@x.com", password := "p" }

/-- The user row the empty store assigns to `aliceInput`. -/
def aliceRow : UserModel :=
  { id := 1, username := "alice", first_name := "A", last_name := "L",
    email := "alice@x.com", password := "p" }

/-- The empty store, with the id sequence at 1. -/
def emptyDb : Db := { rows := [], nextId := 1 }

/-- The store after alice signed up. -/
def dbAfterAlice : Db := { rows := [aliceRow], nextId := 2 }

/-- A second signup input reusing alice's username with a different email
(the spec's concrete 409 scenario). -/
def aliceDupInput : CreateUserSchema :=
  { username := "alice", first_name := "B", last_name := "M",
    email := "alice2@x.com", password := "q" }

/-- Helper: a successful `create_user` comes from a successful insert. -/
theorem create_user_ok_insert {db : Db} {user : CreateUserSchema}
    {row : UserModel} {dbAfter : Db}
    (h : create_user db user = .ok (.ok (row, dbAfter))) :
    db.insertUserRow user = .ok (row, dbAfter) := by
  cases hins : db.insertUserRow user with
  | ok p =>
    obtain ⟨r, d⟩ := p
    unfold create_user at h
    rw [hins] at h
    simp at h
    rw [h.1, h.2]
  | error e =>
    unfold create_user at h
    rw [hins] at h
    cases hse : SignupError.fromSqlx e <;> simp [hse] at h

/-- Helper: the shape of a successful insert — the returned row carries
the generated id and the submitted fields, and the store gains exactly
that row. -/
theorem insertUserRow_ok {db : Db} {user : CreateUserSchema}
    {row : UserModel} {dbAfter : Db}
    (h : db.insertUserRow user = .ok (row, dbAfter)) :
    row = { id := db.nextId, username := user.username,
            first_name := user.first_name, last_name := user.last_name,
            email := user.email, password := user.password } ∧
    dbAfter = { rows := db.rows ++ [row], nextId := db.nextId + 1 } := by
  unfold Db.insertUserRow at h
  split at h
  · simp at h
  · simp at h
    obtain ⟨h1, h2⟩ := h
    subst h2
    subst h1
    exact ⟨rfl, rfl⟩

/-- Helper: appending a row whose id is fresh for the list and then
searching for that id finds exactly the appended row. -/
theorem find_id_append_fresh (rows : List UserModel) (row : UserModel)
    (hfresh : ∀ r ∈ rows, r.id ≠ row.id) :
    ((rows ++ [row]).find? fun r => r.id == row.id) = some row := by
  induction rows with
  | nil => simp
  | cons a t ih =>
    have ha : ¬ (a.id == row.id) = true := by
      simp only [beq_iff_eq]
      exact hfresh a (List.mem_cons_self a t)
    rw [List.cons_append,
      List.find?_cons_of_neg (p := fun (r : UserModel) => r.id == row.id) _ ha]
    exact ih fun r hr => hfresh r (List.mem_cons_of_mem a hr)

/-- Helper: in a list of rows with pairwise-distinct ids, searching for
the id of a member finds exactly that member. -/
theorem find_id_mem_unique (rows : List UserModel) (u : UserModel) (id : Int)
    (huniq : rows.Pairwise fun a b => a.id ≠ b.id)
    (hu : u ∈ rows) (hid : u.id = id) :
    (rows.find? fun r => r.id == id) = some u := by
  induction rows with
  | nil => cases hu
  | cons a t ih =>
    rcases List.pairwise_cons.mp huniq with ⟨ha, ht⟩
    rcases List.mem_cons.mp hu with rfl | hmem
    · exact List.find?_cons_of_pos (p := fun (r : UserModel) => r.id == id) t (by simp [hid])
    · have hne : ¬ (a.id == id) = true := by
        simp only [beq_iff_eq]
        rw [← hid]
        exact ha u hmem
      rw [List.find?_cons_of_neg (p := fun (r : UserModel) => r.id == id) _ hne]
      exact ih ht hmem

/-- Helper: a filter and its complement partition the length of a list. -/
theorem length_filter_add_not {α : Type} (p : α → Bool) (l : List α) :
    (l.filter p).length + (l.filter fun a => !(p a)).length = l.length := by
  induction l with
  | nil => rfl
  | cons a t ih =>
    cases h : p a <;> simp [List.filter_cons, h] <;> omega

/-- Helper: with pairwise-distinct ids, at most one row matches a given
id. -/
theorem filter_id_length_le_one (rows : List UserModel) (id : Int)
    (huniq : rows.Pairwise fun a b => a.id ≠ b.id) :
    (rows.filter fun r => r.id == id).length ≤ 1 := by
  induction rows with
  | nil => simp
  | cons a t ih =>
    rcases List.pairwise_cons.mp huniq with ⟨ha, ht⟩
    by_cases h : a.id = id
    · have hnil : (t.filter fun r => r.id == id) = [] := by
        rw [List.filter_eq_nil_iff]
        intro r hr
        simp only [beq_iff_eq]
        intro hrid
        exact (ha r hr) (by rw [h, hrid])
      rw [List.filter_cons_of_pos (by simp [h]), hnil]
      simp
    · rw [List.filter_cons_of_neg (by simp [h])]
      exact ih ht

/-- Helper: after `setHeader name value`, looking up `name` yields
`value`. -/
theorem getOne_setHeader_self (hs : Headers) (name value : String) :
    (hs.setHeader name value).getOne name = some value := by
  unfold Headers.setHeader Headers.getOne
  have hnone :
      ((hs.pairs.filter fun p => !(p.1 == name)).find? fun p => p.1 == name)
        = none := by
    rw [List.find?_eq_none]
    intro x hx
    have hmem := (List.mem_filter.mp hx).2
    simp only [Bool.not_eq_true', beq_eq_false_iff_ne] at hmem
    simp [hmem]
  simp [List.find?_append, hnone, List.find?]

/-- Helper: filtering out pairs keyed `name` does not change a search for
a different key. -/
theorem find_filter_ne (l : List (String × String)) (name other : String)
    (h : other ≠ name) :
    ((l.filter fun p => !(p.1 == name)).find? fun p => p.1 == other)
      = l.find? fun p => p.1 == other := by
  induction l with
  | nil => rfl
  | cons a t ih =>
    by_cases ha : a.1 = name
    · have hpa : ¬ (a.1 == other) = true := by
        simp only [beq_iff_eq, ha]
        exact fun hh => h hh.symm
      rw [List.filter_cons_of_neg (by simp [ha]), ih,
        List.find?_cons_of_neg (p := fun (q : String × String) => q.1 == other) _ hpa]
    · by_cases hao : a.1 = other
      · rw [List.filter_cons_of_pos (by simp [ha]),
          List.find?_cons_of_pos (p := fun (q : String × String) => q.1 == other) _ (by simp [hao]),
          List.find?_cons_of_pos (p := fun (q : String × String) => q.1 == other) _ (by simp [hao])]
      · rw [List.filter_cons_of_pos (by simp [ha]),
          List.find?_cons_of_neg (p := fun (q : String × String) => q.1 == other) _ (by simp [hao]),
          List.find?_cons_of_neg (p := fun (q : String × String) => q.1 == other) _ (by simp [hao]), ih]

/-- Helper: after `setHeader name value`, looking up another header name
is unchanged. -/
theorem getOne_setHeader_other (hs : Headers) (name value other : String)
    (h : other ≠ name) :
    (hs.setHeader name value).getOne other = hs.getOne other := by
  unfold Headers.setHeader Headers.getOne
  rw [List.find?_append, find_filter_ne _ _ _ h]
  have h2 : (([(name, value)] : List (String × String)).find?
      fun p => p.1 == other) = none := by
    rw [List.find?_eq_none]
    intro x hx
    rw [List.mem_singleton.mp hx]
    simp
    exact fun hh => h hh.symm
  rw [h2]
  cases hs.pairs.find? fun p => p.1 == other <;> rfl

/-- Helper: the header map produced by the CORS fairing, as the chain of
the four `set_header` calls. -/
theorem cors_headers_eq (request : RequestModel) (response : ResponseModel) :
    (CORS.onResponse request response).headers =
      (((response.headers.setHeader "Access-Control-Allow-Origin"
          ((request.headers.getOne "Origin").getD "*")).setHeader
          "Access-Control-Allow-Methods" "POST, GET, PATCH, OPTIONS").setHeader
          "Access-Control-Allow-Headers" "*").setHeader
          "Access-Control-Allow-Credentials" "true" := rfl


/-- Claim C1 counterexample: a database error that is not a Postgres
database error, with underlying code "23505", makes the classifier panic
in the downcast instead of classifying it as a duplicate key. -/
theorem c1_counterexample :
    SignupError.fromSqlx (.Database (.nonPg (some "23505")))
      = .panicked "downcast to wrong type" ∧
    SignupError.fromSqlx (.Database (.nonPg (some "23505")))
      ≠ .ok .NonUniqueIdError := by
  refine ⟨rfl, ?_⟩
  decide

/-- Claim C1, amended: the classifier sends a Postgres database error
with SQLSTATE "23505" to `NonUniqueIdError`, a Postgres database error
with any other code to `UnknownQueryError`, and any non-database error to
`UnknownDatabaseError`; a database error that is not a Postgres database
error instead panics in the downcast, so those are the only outcomes. -/
theorem c1_classifier_mapping (e : SqlxError) :
    (∀ code, e = .Database (.pg code) →
      SignupError.fromSqlx e =
        .ok (if code = "23505" then .NonUniqueIdError else .UnknownQueryError)) ∧
    ((∀ d, e ≠ .Database d) →
      SignupError.fromSqlx e = .ok .UnknownDatabaseError) ∧
    (∀ c, e = .Database (.nonPg c) →
      SignupError.fromSqlx e = .panicked "downcast to wrong type") := by
  refine ⟨?_, ?_, ?_⟩
  · rintro code rfl
    by_cases hc : code = "23505" <;>
      simp [SignupError.fromSqlx, DatabaseErrorBox.downcastPg, hc]
  · intro h
    cases e with
    | Database d => exact absurd rfl (h d)
    | Io => rfl
    | PoolTimedOut => rfl
    | Protocol => rfl
    | RowNotFound => rfl
  · rintro c rfl
    rfl

/-- Witness for the amended C1 mapping at the concrete Postgres code
"23505". -/
theorem c1_classifier_mapping_witness :
    SignupError.fromSqlx (.Database (.pg "23505")) = .ok .NonUniqueIdError := by
  have h := (c1_classifier_mapping (.Database (.pg "23505"))).1 "23505" rfl
  simpa using h

/-- Claim C2 counterexample: classifying a database error that is not a
Postgres database error does not terminate normally — the downcast
panics, so none of the three kinds is returned. -/
theorem c2_counterexample :
    SignupError.fromSqlx (.Database (.nonPg none))
      = .panicked "downcast to wrong type" ∧
    SignupError.fromSqlx (.Database (.nonPg none)) ≠ .ok .NonUniqueIdError ∧
    SignupError.fromSqlx (.Database (.nonPg none)) ≠ .ok .UnknownQueryError ∧
    SignupError.fromSqlx (.Database (.nonPg none)) ≠ .ok .UnknownDatabaseError := by
  refine ⟨rfl, ?_, ?_, ?_⟩ <;> decide

/-- Claim C2, amended: classification terminates normally with one of the
three kinds for every storage error except a database error that is not a
Postgres database error, on which the downcast panics. -/
theorem c2_classifier_total (e : SqlxError)
    (h : ∀ c, e ≠ .Database (.nonPg c)) :
    SignupError.fromSqlx e = .ok .NonUniqueIdError ∨
    SignupError.fromSqlx e = .ok .UnknownQueryError ∨
    SignupError.fromSqlx e = .ok .UnknownDatabaseError := by
  cases e with
  | Database d =>
    cases d with
    | pg code =>
      by_cases hc : code = "23505"
      · left
        simp [SignupError.fromSqlx, DatabaseErrorBox.downcastPg, hc]
      · right; left
        simp [SignupError.fromSqlx, DatabaseErrorBox.downcastPg, hc]
    | nonPg c => exact absurd rfl (h c)
  | Io => right; right; rfl
  | PoolTimedOut => right; right; rfl
  | Protocol => right; right; rfl
  | RowNotFound => right; right; rfl

/-- Witness for the amended C2 totality at a concrete connection
failure. -/
theorem c2_classifier_total_witness :
    SignupError.fromSqlx .Io = .ok .NonUniqueIdError ∨
    SignupError.fromSqlx .Io = .ok .UnknownQueryError ∨
    SignupError.fromSqlx .Io = .ok .UnknownDatabaseError :=
  c2_classifier_total .Io fun _ hc => SqlxError.noConfusion hc

/-- Claim C3: when the insert fails inside the signup workflow, the
response is `Custom status message` with status 409 exactly for
`NonUniqueIdError` and 500 for the two other kinds, the body is the
classifier's fixed display message for that kind, and the duplicate-key
message is the spec's concrete string. -/
theorem c3_signup_failure_response (db : Db) (user : CreateUserSchema)
    (e : SignupError) (h : create_user db user = .ok (.error e)) :
    signup_user db user =
      .ok (.custom (if e = .NonUniqueIdError then 409 else 500)
        e.displayString, db) ∧
    SignupError.displayString .NonUniqueIdError =
      "Duplicate username or email contained a duplicate key." := by
  refine ⟨?_, rfl⟩
  cases e <;>
    simp [signup_user, h, statusConflict, statusInternalServerError]

/-- Witness for C3 at the spec's concrete 409 scenario: signing alice up
a second time with a different email. -/
theorem c3_signup_failure_response_witness :
    signup_user dbAfterAlice aliceDupInput =
      .ok (.custom 409 "Duplicate username or email contained a duplicate key.",
        dbAfterAlice) := by
  have h :=
    (c3_signup_failure_response dbAfterAlice aliceDupInput .NonUniqueIdError rfl).1
  simpa [SignupError.displayString] using h

/-- Claim C4: when the insert succeeds, the signup workflow returns the
created row with a 201 Created outcome whose Location is "/users/"
followed by the assigned id, and the row carries the generated id and
every submitted field. -/
theorem c4_signup_success_response (db : Db) (user : CreateUserSchema)
    (row : UserModel) (dbAfter : Db)
    (h : create_user db user = .ok (.ok (row, dbAfter))) :
    signup_user db user =
      .ok (.created ("/users/" ++ toString row.id) row, dbAfter) ∧
    SignupResponse.statusCode (.created ("/users/" ++ toString row.id) row)
      = 201 ∧
    row.id = db.nextId ∧
    row.username = user.username ∧
    row.first_name = user.first_name ∧
    row.last_name = user.last_name ∧
    row.email = user.email ∧
    row.password = user.password := by
  obtain ⟨hrow, hdb⟩ := insertUserRow_ok (create_user_ok_insert h)
  refine ⟨?_, rfl, ?_, ?_, ?_, ?_, ?_, ?_⟩
  · simp [signup_user, h]
  all_goals rw [hrow]

/-- Witness for C4 at the spec's concrete scenario: alice signed up on
the empty store gets id 1 and Location "/users/1". -/
theorem c4_signup_success_response_witness :
    signup_user emptyDb aliceInput =
      .ok (.created ("/users/" ++ toString aliceRow.id) aliceRow, dbAfterAlice) :=
  (c4_signup_success_response emptyDb aliceInput aliceRow dbAfterAlice rfl).1

/-- Claim C5: round trip — when the generated id is fresh for the store
(as the id sequence guarantees), a successful insert followed by a fetch
of the assigned id returns exactly the inserted row, equal in all six
fields. -/
theorem c5_insert_fetch_roundtrip (db : Db) (user : CreateUserSchema)
    (row : UserModel) (dbAfter : Db)
    (hfresh : ∀ r ∈ db.rows, r.id ≠ db.nextId)
    (h : create_user db user = .ok (.ok (row, dbAfter))) :
    get_user dbAfter row.id = .ok (some row) := by
  obtain ⟨hrow, hdb⟩ := insertUserRow_ok (create_user_ok_insert h)
  have hid : row.id = db.nextId := by rw [hrow]
  rw [hdb]
  show Except.ok ((db.rows ++ [row]).find? fun r => r.id == row.id)
    = Except.ok (some row)
  exact congrArg Except.ok
    (find_id_append_fresh db.rows row fun r hr => by
      rw [hid]; exact hfresh r hr)

/-- Witness for C5: fetching id 1 after alice's signup returns alice's
row. -/
theorem c5_insert_fetch_roundtrip_witness :
    get_user dbAfterAlice aliceRow.id = .ok (some aliceRow) :=
  c5_insert_fetch_roundtrip emptyDb aliceInput aliceRow dbAfterAlice
    (fun r hr => absurd hr (List.not_mem_nil r)) rfl

/-- Claim C6: with ids unique in the store, deleting by id leaves the
non-matching rows, reports `some ()` exactly when the number of affected
rows is 1, affects at most one row, and on a non-existent id succeeds
with `none` leaving the store unchanged. -/
theorem c6_delete_semantics (db : Db) (id : Int)
    (huniq : db.rows.Pairwise fun a b => a.id ≠ b.id) :
    delete_user db id =
      .ok (if (db.rows.filter fun r => r.id == id).length = 1 then some ()
             else none,
           { db with rows := db.rows.filter fun r => !(r.id == id) }) ∧
    (db.rows.filter fun r => r.id == id).length ≤ 1 ∧
    db.rows.length =
      (db.rows.filter fun r => !(r.id == id)).length +
        (db.rows.filter fun r => r.id == id).length ∧
    ((∀ r ∈ db.rows, r.id ≠ id) → delete_user db id = .ok (none, db)) := by
  refine ⟨rfl, filter_id_length_le_one db.rows id huniq, ?_, ?_⟩
  · have h := length_filter_add_not (fun r => r.id == id) db.rows
    omega
  · intro hno
    have h1 : (db.rows.filter fun r => r.id == id) = [] := by
      rw [List.filter_eq_nil_iff]
      intro r hr
      simp [hno r hr]
    have h2 : (db.rows.filter fun r => !(r.id == id)) = db.rows := by
      rw [List.filter_eq_self]
      intro r hr
      simp [hno r hr]
    show Except.ok
        (if (db.rows.filter fun r => r.id == id).length = 1 then some ()
           else none,
         ({ db with rows := db.rows.filter fun r => !(r.id == id) } : Db))
      = .ok (none, db)
    rw [h1, h2]
    rfl

/-- Witness for C6: deleting the non-existent id 999 after alice's signup
is a non-error outcome reporting nothing removed. -/
theorem c6_delete_semantics_witness :
    delete_user dbAfterAlice 999 = .ok (none, dbAfterAlice) :=
  (c6_delete_semantics dbAfterAlice 999 (by decide)).2.2.2 (by decide)

/-- Claim C7: fetching by id never errors — it returns the stored row
with that id inside `.ok some` when one exists (ids unique), and `.ok
none` when no row matches; absence is an outcome distinct from an
error. -/
theorem c7_fetch_absence_not_error (db : Db) (id : Int)
    (huniq : db.rows.Pairwise fun a b => a.id ≠ b.id) :
    get_user db id = .ok (db.rows.find? fun r => r.id == id) ∧
    (∀ u ∈ db.rows, u.id = id → get_user db id = .ok (some u)) ∧
    ((∀ u ∈ db.rows, u.id ≠ id) → get_user db id = .ok none) := by
  refine ⟨rfl, ?_, ?_⟩
  · intro u hu hid
    show Except.ok (db.rows.find? fun r => r.id == id) = .ok (some u)
    exact congrArg Except.ok (find_id_mem_unique db.rows u id huniq hu hid)
  · intro hno
    show Except.ok (db.rows.find? fun r => r.id == id) = .ok none
    refine congrArg Except.ok ?_
    rw [List.find?_eq_none]
    intro r hr
    simp [hno r hr]

/-- Witness for C7 at the spec's concrete scenario: GET id 999 when no
such id exists yields the non-error absence outcome. -/
theorem c7_fetch_absence_not_error_witness :
    get_user dbAfterAlice 999 = .ok none :=
  (c7_fetch_absence_not_error dbAfterAlice 999 (by decide)).2.2 (by decide)

/-- Claim C8: for every request and every response, the CORS fairing
leaves the response with Allow-Origin echoing the request's Origin header
(or "*" when absent), the fixed Allow-Methods list, Allow-Headers "*",
and Allow-Credentials "true". -/
theorem c8_cors_headers (request : RequestModel) (response : ResponseModel) :
    (CORS.onResponse request response).headers.getOne
        "Access-Control-Allow-Origin"
      = some ((request.headers.getOne "Origin").getD "*") ∧
    (CORS.onResponse request response).headers.getOne
        "Access-Control-Allow-Methods"
      = some "POST, GET, PATCH, OPTIONS" ∧
    (CORS.onResponse request response).headers.getOne
        "Access-Control-Allow-Headers"
      = some "*" ∧
    (CORS.onResponse request response).headers.getOne
        "Access-Control-Allow-Credentials"
      = some "true" := by
  rw [cors_headers_eq request response]
  refine ⟨?_, ?_, ?_, ?_⟩
  · rw [getOne_setHeader_other _ _ _ _ (by decide),
      getOne_setHeader_other _ _ _ _ (by decide),
      getOne_setHeader_other _ _ _ _ (by decide),
      getOne_setHeader_self]
  · rw [getOne_setHeader_other _ _ _ _ (by decide),
      getOne_setHeader_other _ _ _ _ (by decide),
      getOne_setHeader_self]
  · rw [getOne_setHeader_other _ _ _ _ (by decide),
      getOne_setHeader_self]
  · rw [getOne_setHeader_self]

/-- Claim C9, evaluated: composing each mount base of `users_stage` with
the route's own path serves the list operation at "/users/users" and the
delete operation at "/users/users/<id>" — not the "/users" and
"/users/<id>" of the spec's route table (fetch and signup do match). -/
theorem c9_route_paths :
    effectiveRoutes =
      [("GET", "/users/users"), ("DELETE", "/users/users/<id>"),
       ("GET", "/users/<id>"), ("POST", "/signup")] ∧
    effectiveRoutes ≠ specRouteTable := by
  refine ⟨by decide, by decide⟩

/-- Claim C10: every User-carrying success body exposes the stored
password verbatim — the created row of a successful signup keeps and
serializes the submitted password unchanged, the list result is the
stored rows as-is, each serializing its stored password, and a
successful fetch returns a stored row whose serialization carries its
password. -/
theorem c10_password_verbatim (db : Db) (user : CreateUserSchema)
    (row : UserModel) (dbAfter : Db)
    (h : create_user db user = .ok (.ok (row, dbAfter))) :
    row.password = user.password ∧
    List.lookup "password" row.serialize = some (.str user.password) ∧
    list_users dbAfter = .ok dbAfter.rows ∧
    (∀ u ∈ dbAfter.rows,
      List.lookup "password" u.serialize = some (.str u.password)) ∧
    (∀ i u, get_user dbAfter i = .ok (some u) →
      u ∈ dbAfter.rows ∧
      List.lookup "password" u.serialize = some (.str u.password)) := by
  obtain ⟨hrow, hdb⟩ := insertUserRow_ok (create_user_ok_insert h)
  have hpw : row.password = user.password := by rw [hrow]
  refine ⟨hpw, ?_, rfl, fun u _ => rfl, fun i u hget => ⟨?_, rfl⟩⟩
  · rw [← hpw]
    rfl
  · have hfind : (dbAfter.rows.find? fun r => r.id == i) = some u :=
      Except.ok.inj hget
    exact List.mem_of_find?_eq_some hfind

/-- Witness for C10: alice's stored row serializes her submitted password
verbatim. -/
theorem c10_password_verbatim_witness :
    List.lookup "password" aliceRow.serialize
      = some (.str aliceInput.password) :=
  (c10_password_verbatim emptyDb aliceInput aliceRow dbAfterAlice rfl).2.1
